import Mathlib

/-!
Verification of the cistem_vision_back camera/vision core.

Shallow embedding of:
* `modules/vision/gpu_manager.py` — GPU slot admission (`GPUManager`);
* `modules/vision/camera_process.py` — evidence recorder (`VideoWriterThread`)
  and the sentinel state machine (`CameraProcess._handle_sentinel_mode`),
  plus the capture loop's retry structure (`CameraProcess._capture_loop`);
* `modules/vision/manager.py` — the supervisor (`VisionManager`): `start_camera`,
  the watchdog restart path, and `_camera_loop`'s reconnect cap.

Machine integers are modelled as `Int`/`Nat`; wall-clock timestamps as `Int`
(only ordering and subtraction matter to the code under verification);
fallible external collaborators (CUDA availability, `cv2.imwrite` success,
configuration lookups) are explicit parameters.
-/

namespace CistemVision

/-! ### GPU admission controller — `modules/vision/gpu_manager.py`

`GPUManager` keeps `_gpu_slots_used : int` and `_gpu_assigned_cams : list`,
with `_max_gpu_slots = 2`.  `torch.cuda.is_available()` is modelled by the
`cudaAvailable : Bool` parameter. -/

def max_gpu_slots : Nat := 2

/-- Priority table `PROCESSOR_GPU_PRIORITY.get(processor_id, 0)`: 2 ↦ 100 (intrusion),
3 ↦ 80 (flow cars / vehicle), 1 ↦ 60 (person counter), default 0. -/
def PROCESSOR_GPU_PRIORITY (processorId : Int) : Int :=
  if processorId = 2 then 100
  else if processorId = 3 then 80
  else if processorId = 1 then 60
  else 0

structure GpuState where
  gpu_slots_used : Int
  gpu_assigned_cams : List Int
  deriving Repr, DecidableEq

def GpuState.init : GpuState := { gpu_slots_used := 0, gpu_assigned_cams := [] }

/-- Model of `GPUManager.request_gpu_slot(cam_id, processor_id)`.  Returns the Python
return value and the post state.  The `processor_id` argument only feeds the
log line in the source, so it is unused here as well. -/
def request_gpu_slot (cudaAvailable : Bool) (s : GpuState) (cam_id : Int)
    (processor_id : Int) : Bool × GpuState :=
  if !cudaAvailable then (false, s)
  else if cam_id ∈ s.gpu_assigned_cams then (true, s)
  else if s.gpu_slots_used < (max_gpu_slots : Int) then
    (true, { gpu_slots_used := s.gpu_slots_used + 1,
             gpu_assigned_cams := s.gpu_assigned_cams ++ [cam_id] })
  else (false, s)

/-- Model of `GPUManager.release_gpu_slot(cam_id)` (the CUDA cache cleanup has no
effect on the slot table). -/
def release_gpu_slot (s : GpuState) (cam_id : Int) : GpuState :=
  if cam_id ∈ s.gpu_assigned_cams then
    { gpu_assigned_cams := s.gpu_assigned_cams.erase cam_id,
      gpu_slots_used := max 0 (s.gpu_slots_used - 1) }
  else s

/-- Model of `GPUManager.get_recommended_device(cam_id, processor_id)`:
`('cuda:0', True)` when a slot is granted, `('cpu', False)` otherwise. -/
def get_recommended_device (cudaAvailable : Bool) (s : GpuState) (cam_id : Int)
    (processor_id : Int) : (String × Bool) × GpuState :=
  let r := request_gpu_slot cudaAvailable s cam_id processor_id
  if r.1 then (("cuda:0", true), r.2) else (("cpu", false), r.2)

inductive GpuOp where
  | request (cam_id : Int) (processor_id : Int)
  | release (cam_id : Int)
  deriving Repr, DecidableEq

def gpu_step (cudaAvailable : Bool) (s : GpuState) : GpuOp → GpuState
  | .request cam_id processor_id =>
      (request_gpu_slot cudaAvailable s cam_id processor_id).2
  | .release cam_id => release_gpu_slot s cam_id

def run_gpu_ops (cudaAvailable : Bool) (s : GpuState) (ops : List GpuOp) : GpuState :=
  ops.foldl (gpu_step cudaAvailable) s

/-- Inductive invariant of the slot table. -/
def GpuState.Inv (s : GpuState) : Prop :=
  s.gpu_assigned_cams.Nodup ∧
  s.gpu_slots_used = s.gpu_assigned_cams.length ∧
  s.gpu_assigned_cams.length ≤ max_gpu_slots

theorem gpu_inv_init : GpuState.Inv GpuState.init := by
  simp [GpuState.Inv, GpuState.init]

theorem gpu_inv_request (cudaAvailable : Bool) (s : GpuState) (c p : Int)
    (h : s.Inv) : (request_gpu_slot cudaAvailable s c p).2.Inv := by
  obtain ⟨hnd, hlen, hcap⟩ := h
  unfold request_gpu_slot
  split
  · exact ⟨hnd, hlen, hcap⟩
  · split
    · exact ⟨hnd, hlen, hcap⟩
    · split
      · rename_i hm hlt
        refine ⟨?_, ?_, ?_⟩
        · exact hnd.append (List.nodup_singleton c)
            (by simpa [List.disjoint_singleton] using hm)
        · simp only [List.length_append, List.length_cons, List.length_nil]
          rw [hlen]
          push_cast
          ring
        · rw [hlen] at hlt
          simp only [List.length_append, List.length_cons, List.length_nil,
            max_gpu_slots] at hlt ⊢
          omega
      · exact ⟨hnd, hlen, hcap⟩

theorem gpu_inv_release (s : GpuState) (c : Int) (h : s.Inv) :
    (release_gpu_slot s c).Inv := by
  obtain ⟨hnd, hlen, hcap⟩ := h
  unfold release_gpu_slot
  split
  · rename_i hm
    have hlenpos : 1 ≤ s.gpu_assigned_cams.length := by
      cases hl : s.gpu_assigned_cams with
      | nil => simp [hl] at hm
      | cons a t => simp [hl]
    have herase : (s.gpu_assigned_cams.erase c).length =
        s.gpu_assigned_cams.length - 1 := List.length_erase_of_mem hm
    refine ⟨hnd.erase c, ?_, ?_⟩
    · show max 0 (s.gpu_slots_used - 1) = _
      rw [herase, hlen]
      have h0 : (0 : Int) ≤ (s.gpu_assigned_cams.length : Int) - 1 := by omega
      rw [max_eq_right h0]
      omega
    · rw [herase]
      omega
  · exact ⟨hnd, hlen, hcap⟩

theorem gpu_inv_runOps (cudaAvailable : Bool) (ops : List GpuOp) (s : GpuState)
    (h : s.Inv) : (run_gpu_ops cudaAvailable s ops).Inv := by
  induction ops generalizing s with
  | nil => simpa [run_gpu_ops]
  | cons op rest ih =>
    cases op with
    | request c p =>
      exact ih _ (gpu_inv_request cudaAvailable s c p h)
    | release c =>
      exact ih _ (gpu_inv_release s c h)

/-- C2: for every sequence of request/release calls, starting from the empty
slot table, the number of assigned cameras never exceeds the capacity
(`max_gpu_slots = 2`), every camera id occurs at most once in the table, and a
repeated request by a camera that already holds a slot returns granted with
the state unchanged. -/
theorem gpu_capacity_and_single_slot (cudaAvailable : Bool) (ops : List GpuOp) :
    (run_gpu_ops cudaAvailable GpuState.init ops).gpu_assigned_cams.length ≤ max_gpu_slots ∧
    (∀ c : Int,
      (run_gpu_ops cudaAvailable GpuState.init ops).gpu_assigned_cams.count c ≤ 1) ∧
    (∀ c p : Int, c ∈ (run_gpu_ops cudaAvailable GpuState.init ops).gpu_assigned_cams →
      request_gpu_slot true (run_gpu_ops cudaAvailable GpuState.init ops) c p =
        (true, run_gpu_ops cudaAvailable GpuState.init ops)) := by
  obtain ⟨hnd, _hlen, hcap⟩ := gpu_inv_runOps cudaAvailable ops GpuState.init gpu_inv_init
  refine ⟨hcap, fun c => List.nodup_iff_count_le_one.mp hnd c, fun c p hc => ?_⟩
  simp [request_gpu_slot, hc]

/-- Closed witness for `gpu_capacity_and_single_slot`: a camera that already
holds a slot is granted again without a second assignment. -/
theorem gpu_capacity_and_single_slot_witness :
    request_gpu_slot true (run_gpu_ops true GpuState.init
        [GpuOp.request 7 2, GpuOp.request 7 2, GpuOp.request 8 3]) 7 2 =
      (true, run_gpu_ops true GpuState.init
        [GpuOp.request 7 2, GpuOp.request 7 2, GpuOp.request 8 3]) :=
  (gpu_capacity_and_single_slot true
    [GpuOp.request 7 2, GpuOp.request 7 2, GpuOp.request 8 3]).2.2 7 2 (by decide)

/-- C9: after any finite sequence of `request_gpu_slot`/`release_gpu_slot`
calls the counter `_gpu_slots_used` equals the length of
`_gpu_assigned_cams`, and `_gpu_assigned_cams` has no duplicate camera ids. -/
theorem gpu_used_eq_assigned_length_nodup (cudaAvailable : Bool) (ops : List GpuOp) :
    (run_gpu_ops cudaAvailable GpuState.init ops).gpu_slots_used =
      (run_gpu_ops cudaAvailable GpuState.init ops).gpu_assigned_cams.length ∧
    (run_gpu_ops cudaAvailable GpuState.init ops).gpu_assigned_cams.Nodup := by
  obtain ⟨hnd, hlen, _⟩ := gpu_inv_runOps cudaAvailable ops GpuState.init gpu_inv_init
  exact ⟨hlen, hnd⟩

/-- C3: with capacity 2 and CUDA available, the requests person (cam 1,
processor 1, priority 60), vehicle (cam 3, processor 3, priority 80),
intrusion (cam 2, processor 2, priority 100), in that order: the first two
are granted, the third (highest priority) is denied and evicts nobody, and
`get_recommended_device` yields `('cpu', False)` for the denied camera and
`('cuda:0', True)` for the two holders. -/
theorem gpu_no_preemption_scenario :
    PROCESSOR_GPU_PRIORITY 2 = 100 ∧
    PROCESSOR_GPU_PRIORITY 3 = 80 ∧
    PROCESSOR_GPU_PRIORITY 1 = 60 ∧
    (request_gpu_slot true GpuState.init 1 1).1 = true ∧
    (request_gpu_slot true (request_gpu_slot true GpuState.init 1 1).2 3 3).1 = true ∧
    (request_gpu_slot true
      (request_gpu_slot true (request_gpu_slot true GpuState.init 1 1).2 3 3).2 2 2).1
        = false ∧
    (request_gpu_slot true
      (request_gpu_slot true (request_gpu_slot true GpuState.init 1 1).2 3 3).2 2 2).2.gpu_assigned_cams = [1, 3] ∧
    get_recommended_device true
      (request_gpu_slot true
        (request_gpu_slot true (request_gpu_slot true GpuState.init 1 1).2 3 3).2 2 2).2
      2 2 =
      (("cpu", false),
       (request_gpu_slot true
         (request_gpu_slot true (request_gpu_slot true GpuState.init 1 1).2 3 3).2 2
         2).2) ∧
    (get_recommended_device true
      (request_gpu_slot true
        (request_gpu_slot true (request_gpu_slot true GpuState.init 1 1).2 3 3).2 2 2).2
      1 1).1 = ("cuda:0", true) ∧
    (get_recommended_device true
      (request_gpu_slot true
        (request_gpu_slot true (request_gpu_slot true GpuState.init 1 1).2 3 3).2 2 2).2
      3 3).1 = ("cuda:0", true) := by
  decide

/-- C4: `release_gpu_slot` on a camera that holds no slot leaves the table
unchanged, and — on any reachable state — releasing the same camera twice in
a row equals releasing it once. -/
theorem release_gpu_slot_idempotent (cudaAvailable : Bool) (ops : List GpuOp) (c : Int) :
    (c ∉ (run_gpu_ops cudaAvailable GpuState.init ops).gpu_assigned_cams →
      release_gpu_slot (run_gpu_ops cudaAvailable GpuState.init ops) c =
        run_gpu_ops cudaAvailable GpuState.init ops) ∧
    release_gpu_slot (release_gpu_slot (run_gpu_ops cudaAvailable GpuState.init ops) c) c =
      release_gpu_slot (run_gpu_ops cudaAvailable GpuState.init ops) c := by
  obtain ⟨hnd, _, _⟩ := gpu_inv_runOps cudaAvailable ops GpuState.init gpu_inv_init
  set s := run_gpu_ops cudaAvailable GpuState.init ops with hs
  constructor
  · intro hnm
    simp [release_gpu_slot, hnm]
  · by_cases hm : c ∈ s.gpu_assigned_cams
    · have h2 : c ∉ s.gpu_assigned_cams.erase c := by
        intro hmem
        exact ((List.Nodup.mem_erase_iff hnd).mp hmem).1 rfl
      simp [release_gpu_slot, hm, h2]
    · simp [release_gpu_slot, hm]

/-- Closed witness for `release_gpu_slot_idempotent` at a concrete reachable
state: camera 9 holds no slot, so its release is a no-op. -/
theorem release_gpu_slot_idempotent_witness :
    release_gpu_slot (run_gpu_ops true GpuState.init [GpuOp.request 5 1]) 9 =
      run_gpu_ops true GpuState.init [GpuOp.request 5 1] :=
  (release_gpu_slot_idempotent true [GpuOp.request 5 1] 9).1 (by decide)

/-! ### Evidence recorder — `VideoWriterThread` in `modules/vision/camera_process.py`

The writer thread is fed through `self.queue = queue.Queue()`.  Python's
`queue.Queue(maxsize)` treats `maxsize <= 0` as an infinite queue; the
constructor uses the default `maxsize = 0`.  Commands are dicts with
`type` in `START`/`FRAME`/`STOP`; a frame payload is abstracted to a `Nat`
id (its bytes are irrelevant to the control logic). -/

/-- The `maxsize` with which `VideoWriterThread.__init__` creates
`self.queue` (`queue.Queue()`, i.e. the default `0`, meaning infinite). -/
def video_writer_queue_maxsize : Int := 0

/-- Python `Queue.put(item, block=False)` succeeds (does not raise
`queue.Full`) iff `maxsize <= 0` or the current size is below `maxsize`. -/
def put_nowait_succeeds (maxsize : Int) (qlen : Nat) : Bool :=
  maxsize ≤ 0 || (qlen : Int) < maxsize

inductive WriterCmd where
  | start (filename : String)
  | frame (data : Nat)
  | stop
  deriving Repr, DecidableEq

def WriterCmd.isStart : WriterCmd → Bool
  | .start _ => true
  | _ => false

def WriterCmd.isStop : WriterCmd → Bool
  | .stop => true
  | _ => false

@[simp] theorem WriterCmd.isStart_start (f : String) :
    (WriterCmd.start f).isStart = true := rfl

@[simp] theorem WriterCmd.isStart_frame (d : Nat) :
    (WriterCmd.frame d).isStart = false := rfl

@[simp] theorem WriterCmd.isStart_stop : WriterCmd.stop.isStart = false := rfl

@[simp] theorem WriterCmd.isStop_start (f : String) :
    (WriterCmd.start f).isStop = false := rfl

@[simp] theorem WriterCmd.isStop_frame (d : Nat) :
    (WriterCmd.frame d).isStop = false := rfl

@[simp] theorem WriterCmd.isStop_stop : WriterCmd.stop.isStop = true := rfl

structure VideoWriterState where
  is_recording : Bool
  q : List WriterCmd
  current_filename : Option String
  current_thumbnail : Option String
  deriving Repr, DecidableEq

def VideoWriterState.init : VideoWriterState :=
  { is_recording := false, q := [], current_filename := none,
    current_thumbnail := none }

/-- Filename pattern `f"cam_{cam_id}_{timestamp}.mp4"` -/
def evidence_filename (cam_id : Int) (timestamp : String) : String :=
  "cam_" ++ toString cam_id ++ "_" ++ timestamp ++ ".mp4"

/-- Thumbnail pattern `f"cam_{cam_id}_{timestamp}_thumb.jpg"` -/
def thumbnail_filename (cam_id : Int) (timestamp : String) : String :=
  "cam_" ++ toString cam_id ++ "_" ++ timestamp ++ "_thumb.jpg"

/-- Python truthiness of an optional string (`if filename:` / `if not
rtsp_url:`): `None` and the empty string are falsy. -/
def pyTruthyOptStr : Option String → Bool
  | none => false
  | some s => s != ""

/-- Model of `VideoWriterThread.start_recording(first_frame)`.  The timestamp string
(`datetime.utcnow().strftime(...)`) and the success of `cv2.imwrite` for the
thumbnail are external inputs.  Returns the `(filename, thumbnail_name)`
pair (Python `None` is `Option.none`) and the post state; the `START`
command is enqueued with a blocking `put`, which on an infinite queue always
succeeds. -/
def start_recording (cam_id : Int) (timestamp : String) (imwriteOk : Bool)
    (first_frame : Option Nat) (s : VideoWriterState) :
    (Option String × Option String) × VideoWriterState :=
  if s.is_recording then ((none, none), s)
  else
    let filename := evidence_filename cam_id timestamp
    let thumbnail_name : Option String :=
      if first_frame.isSome && !imwriteOk then none
      else some (thumbnail_filename cam_id timestamp)
    ((some filename, thumbnail_name),
     { is_recording := true,
       q := s.q ++ [WriterCmd.start filename],
       current_filename := some filename,
       current_thumbnail := thumbnail_name })

/-- Model of `VideoWriterThread.stop_recording()`. -/
def stop_recording (s : VideoWriterState) : VideoWriterState :=
  if !s.is_recording then s
  else { s with is_recording := false, q := s.q ++ [WriterCmd.stop] }

/-- Model of `VideoWriterThread.add_frame(frame)`: enqueue non-blocking while
recording; on `queue.Full` the frame is silently dropped. -/
def add_frame (data : Nat) (s : VideoWriterState) : VideoWriterState :=
  if s.is_recording then
    if put_nowait_succeeds video_writer_queue_maxsize s.q.length then
      { s with q := s.q ++ [WriterCmd.frame data] }
    else s
  else s

/-- Observable handling of one dequeued command inside
`VideoWriterThread.run` (ffmpeg subprocess liveness is carried as the handle
`h`, named by the file it writes; `subprocess.Popen` failure and the
broken-pipe path are not exercised by the claims under verification). -/
inductive WriterEvent where
  | started (filename : String)
  | wroteFrame (data : Nat)
  | stopped
  deriving Repr, DecidableEq

def WriterEvent.isStarted : WriterEvent → Bool
  | .started _ => true
  | _ => false

def WriterEvent.isStopped : WriterEvent → Bool
  | .stopped => true
  | _ => false

@[simp] theorem WriterEvent.isStarted_started (f : String) :
    (WriterEvent.started f).isStarted = true := rfl

@[simp] theorem WriterEvent.isStarted_wroteFrame (d : Nat) :
    (WriterEvent.wroteFrame d).isStarted = false := rfl

@[simp] theorem WriterEvent.isStarted_stopped :
    WriterEvent.stopped.isStarted = false := rfl

@[simp] theorem WriterEvent.isStopped_started (f : String) :
    (WriterEvent.started f).isStopped = false := rfl

@[simp] theorem WriterEvent.isStopped_wroteFrame (d : Nat) :
    (WriterEvent.wroteFrame d).isStopped = false := rfl

@[simp] theorem WriterEvent.isStopped_stopped :
    WriterEvent.stopped.isStopped = true := rfl

def process_writer_cmd (h : Option String) :
    WriterCmd → Option String × List WriterEvent
  | .start filename => (some filename, [WriterEvent.started filename])
  | .frame d => (h, if h.isSome then [WriterEvent.wroteFrame d] else [])
  | .stop => (none, [WriterEvent.stopped])

/-- The `run` loop drains the queue FIFO, handling each command in turn. -/
def drain_queue (h : Option String) : List WriterCmd → List WriterEvent
  | [] => []
  | c :: rest =>
    let r := process_writer_cmd h c
    r.2 ++ drain_queue r.1 rest

/-- Producer-side calls into the recorder, as issued by the detection loop. -/
inductive RecorderOp where
  | opStart (cam_id : Int) (timestamp : String) (imwriteOk : Bool)
      (first_frame : Option Nat)
  | opStop
  | opFrame (data : Nat)

def run_recorder_ops (s : VideoWriterState) : List RecorderOp → VideoWriterState
  | [] => s
  | RecorderOp.opStart cam_id ts ok ff :: rest =>
      run_recorder_ops (start_recording cam_id ts ok ff s).2 rest
  | RecorderOp.opStop :: rest => run_recorder_ops (stop_recording s) rest
  | RecorderOp.opFrame d :: rest => run_recorder_ops (add_frame d s) rest

/-- Instrumented run: also counts the calls that actually create a `START`
command (a `start_recording` while idle) and a `STOP` command (a
`stop_recording` while recording). -/
def run_recorder_count (s : VideoWriterState) :
    List RecorderOp → VideoWriterState × Nat × Nat
  | [] => (s, 0, 0)
  | RecorderOp.opStart cam_id ts ok ff :: rest =>
      let r := run_recorder_count (start_recording cam_id ts ok ff s).2 rest
      (r.1, (if s.is_recording then 0 else 1) + r.2.1, r.2.2)
  | RecorderOp.opStop :: rest =>
      let r := run_recorder_count (stop_recording s) rest
      (r.1, r.2.1, (if s.is_recording then 1 else 0) + r.2.2)
  | RecorderOp.opFrame d :: rest => run_recorder_count (add_frame d s) rest

theorem run_frames_length (n : Nat) (s : VideoWriterState)
    (hs : s.is_recording = true) :
    (run_recorder_ops s (List.replicate n (RecorderOp.opFrame 0))).q.length =
      s.q.length + n := by
  induction n generalizing s with
  | zero => simp [run_recorder_ops]
  | succ n ih =>
    rw [List.replicate_succ]
    show (run_recorder_ops (add_frame 0 s) _).q.length = _
    have hadd : add_frame 0 s =
        { s with q := s.q ++ [WriterCmd.frame 0] } := by
      simp [add_frame, hs, put_nowait_succeeds, video_writer_queue_maxsize]
    rw [hadd]
    rw [ih { s with q := s.q ++ [WriterCmd.frame 0] } hs]
    simp
    omega

/-- C5 counterexample: the recorder's command queue is not bounded — for
every proposed bound there is a call sequence (start one recording, then
enough frames) whose queue grows past it, because `queue.Queue()` is created
with the default infinite `maxsize`. -/
theorem evidence_queue_not_bounded :
    ¬ ∃ B : Nat, ∀ ops : List RecorderOp,
        (run_recorder_ops VideoWriterState.init ops).q.length ≤ B := by
  rintro ⟨B, h⟩
  have hx := h (RecorderOp.opStart 1 "ts" true (some 0) ::
    List.replicate (B + 1) (RecorderOp.opFrame 0))
  have hstep : run_recorder_ops VideoWriterState.init
      (RecorderOp.opStart 1 "ts" true (some 0) ::
        List.replicate (B + 1) (RecorderOp.opFrame 0)) =
      run_recorder_ops (start_recording 1 "ts" true (some 0)
        VideoWriterState.init).2
        (List.replicate (B + 1) (RecorderOp.opFrame 0)) := rfl
  have hs1 : (start_recording 1 "ts" true (some 0)
      VideoWriterState.init).2.is_recording = true := rfl
  have hq1 : (start_recording 1 "ts" true (some 0)
      VideoWriterState.init).2.q.length = 1 := rfl
  rw [hstep, run_frames_length (B + 1) _ hs1, hq1] at hx
  omega

theorem run_recorder_count_queue (ops : List RecorderOp) (s : VideoWriterState) :
    (run_recorder_count s ops).1.q.countP (fun c => c.isStart) =
      s.q.countP (fun c => c.isStart) + (run_recorder_count s ops).2.1 ∧
    (run_recorder_count s ops).1.q.countP (fun c => c.isStop) =
      s.q.countP (fun c => c.isStop) + (run_recorder_count s ops).2.2 := by
  induction ops generalizing s with
  | nil => simp [run_recorder_count]
  | cons op rest ih =>
    cases op with
    | opStart cam_id ts ok ff =>
      obtain ⟨h1, h2⟩ := ih (start_recording cam_id ts ok ff s).2
      by_cases hr : s.is_recording
      · have hsame : (start_recording cam_id ts ok ff s).2 = s := by
          simp [start_recording, hr]
        rw [hsame] at h1 h2
        simp [run_recorder_count, hr, hsame]
        exact ⟨by omega, by omega⟩
      · have hq : (start_recording cam_id ts ok ff s).2.q =
            s.q ++ [WriterCmd.start (evidence_filename cam_id ts)] := by
          simp [start_recording, hr]
        rw [hq] at h1 h2
        simp only [List.countP_append, List.countP_cons, List.countP_nil,
          WriterCmd.isStart_start, WriterCmd.isStop_start, if_true,
          Bool.false_eq_true, if_false] at h1 h2
        simp [run_recorder_count, hr]
        exact ⟨by omega, by omega⟩
    | opStop =>
      obtain ⟨h1, h2⟩ := ih (stop_recording s)
      by_cases hr : s.is_recording
      · have hq : (stop_recording s).q = s.q ++ [WriterCmd.stop] := by
          simp [stop_recording, hr]
        rw [hq] at h1 h2
        simp only [List.countP_append, List.countP_cons, List.countP_nil,
          WriterCmd.isStart_stop, WriterCmd.isStop_stop, if_true,
          Bool.false_eq_true, if_false] at h1 h2
        simp [run_recorder_count, hr]
        exact ⟨by omega, by omega⟩
      · have hsame : stop_recording s = s := by
          simp [stop_recording, hr]
        rw [hsame] at h1 h2
        simp [run_recorder_count, hr, hsame]
        exact ⟨by omega, by omega⟩
    | opFrame d =>
      obtain ⟨h1, h2⟩ := ih (add_frame d s)
      have hq : (add_frame d s).q = s.q ∨
          (add_frame d s).q = s.q ++ [WriterCmd.frame d] := by
        unfold add_frame
        split
        · split
          · right; rfl
          · left; rfl
        · left; rfl
      simp only [run_recorder_count]
      cases hq with
      | inl hq => rw [hq] at h1 h2; exact ⟨h1, h2⟩
      | inr hq =>
        rw [hq] at h1 h2
        simp only [List.countP_append, List.countP_cons, List.countP_nil,
          WriterCmd.isStart_frame, WriterCmd.isStop_frame,
          Bool.false_eq_true, if_false] at h1 h2
        exact ⟨by omega, by omega⟩

theorem drain_queue_counts (q : List WriterCmd) (h : Option String) :
    (drain_queue h q).countP (fun e => e.isStarted) =
      q.countP (fun c => c.isStart) ∧
    (drain_queue h q).countP (fun e => e.isStopped) =
      q.countP (fun c => c.isStop) := by
  induction q generalizing h with
  | nil => simp [drain_queue]
  | cons c rest ih =>
    cases c with
    | start fn =>
      obtain ⟨h1, h2⟩ := ih (some fn)
      simp [drain_queue, process_writer_cmd, h1, h2]
    | frame d =>
      cases h with
      | none =>
        obtain ⟨h1, h2⟩ := ih none
        simp [drain_queue, process_writer_cmd, h1, h2]
      | some fn =>
        obtain ⟨h1, h2⟩ := ih (some fn)
        simp [drain_queue, process_writer_cmd, h1, h2]
    | stop =>
      obtain ⟨h1, h2⟩ := ih none
      simp [drain_queue, process_writer_cmd, h1, h2]

/-- C5 (amended): the recorder queue is unbounded, `Frame` submissions never
block (each one either appends its command or drops it when the non-blocking
put fails), and every `START`/`STOP` command produced by the producer calls
is enqueued — none is ever dropped — and each is handled exactly once by the
writer loop when it drains the queue. -/
theorem recorder_start_stop_never_dropped (ops : List RecorderOp) :
    (run_recorder_count VideoWriterState.init ops).1.q.countP
        (fun c => c.isStart) = (run_recorder_count VideoWriterState.init ops).2.1 ∧
    (run_recorder_count VideoWriterState.init ops).1.q.countP
        (fun c => c.isStop) = (run_recorder_count VideoWriterState.init ops).2.2 ∧
    (drain_queue none (run_recorder_count VideoWriterState.init ops).1.q).countP
        (fun e => e.isStarted) = (run_recorder_count VideoWriterState.init ops).2.1 ∧
    (drain_queue none (run_recorder_count VideoWriterState.init ops).1.q).countP
        (fun e => e.isStopped) = (run_recorder_count VideoWriterState.init ops).2.2 ∧
    (∀ (d : Nat) (t : VideoWriterState),
      add_frame d t = t ∨ (add_frame d t).q = t.q ++ [WriterCmd.frame d]) := by
  obtain ⟨h1, h2⟩ := run_recorder_count_queue ops VideoWriterState.init
  obtain ⟨h3, h4⟩ := drain_queue_counts (run_recorder_count VideoWriterState.init ops).1.q none
  have hinit : VideoWriterState.init.q = [] := rfl
  rw [hinit] at h1 h2
  simp only [List.countP_nil, Nat.zero_add] at h1 h2
  refine ⟨h1, h2, by rw [h3, h1], by rw [h4, h2], ?_⟩
  intro d t
  unfold add_frame
  split
  · split
    · right; rfl
    · left; rfl
  · left; rfl

/-! ### Sentinel state machine — `CameraProcess._handle_sentinel_mode`

Per-worker state: `self.is_intrusion_active` (initially `False`),
`self.last_intrusion_time` (initially `0`), `self.cooldown_seconds = 5.0`,
and the recorder thread `self.video_thread`.  Alerts are put on
`self.alert_queue`; only the `action`/`status` fields of the payload matter
to the claims (the message text, level, context urls and button label are
abstracted away). -/

def cooldown_seconds : Int := 5

structure AlertPayload where
  action : String
  status : String
  deriving Repr, DecidableEq

/-- Payload of `_send_create_alert(..., status="detected")`. -/
def alert_detected : AlertPayload := { action := "create", status := "detected" }

/-- Payload of `_send_update_alert(status="finished")`. -/
def alert_finished : AlertPayload := { action := "update", status := "finished" }

structure SentinelState where
  is_intrusion_active : Bool
  last_intrusion_time : Int
  recorder : VideoWriterState
  deriving Repr, DecidableEq

def SentinelState.init : SentinelState :=
  { is_intrusion_active := false, last_intrusion_time := 0,
    recorder := VideoWriterState.init }

/-- Model of `CameraProcess._handle_sentinel_mode(result, frame)` for one processed
frame: `is_intrusion = result.get('intrusion', False)`, `current_time =
time.time()`.  Returns the post state and the alerts emitted during the
call, in emission order. -/
def handle_sentinel_mode (cam_id : Int) (timestamp : String) (imwriteOk : Bool)
    (is_intrusion : Bool) (frame : Nat) (current_time : Int)
    (s : SentinelState) : SentinelState × List AlertPayload :=
  let r :=
    if is_intrusion then
      let s1 := { s with last_intrusion_time := current_time }
      if !s1.is_intrusion_active then
        let s2 := { s1 with is_intrusion_active := true }
        let r0 := start_recording cam_id timestamp imwriteOk (some frame) s2.recorder
        let s3 := { s2 with recorder := r0.2 }
        if pyTruthyOptStr r0.1.1 then (s3, [alert_detected]) else (s3, [])
      else (s1, [])
    else
      if s.is_intrusion_active then
        if cooldown_seconds < current_time - s.last_intrusion_time then
          ({ s with
              is_intrusion_active := false,
              recorder := stop_recording s.recorder }, [alert_finished])
        else (s, [])
      else (s, [])
  if r.1.is_intrusion_active then
    ({ r.1 with recorder := add_frame frame r.1.recorder }, r.2)
  else r

/-- Drives `_handle_sentinel_mode` over a list of processed frames, each one
a pair (intrusion detected?, `time.time()` at that frame); the frame byte
payload is irrelevant to the control logic and fixed at `0`. -/
def sentinel_run (cam_id : Int) (timestamp : String) (imwriteOk : Bool)
    (s : SentinelState) : List (Bool × Int) → SentinelState × List AlertPayload
  | [] => (s, [])
  | (isIntr, t) :: rest =>
    let r := handle_sentinel_mode cam_id timestamp imwriteOk isIntr 0 t s
    let r2 := sentinel_run cam_id timestamp imwriteOk r.1 rest
    (r2.1, r.2 ++ r2.2)

theorem evidence_filename_truthy (c : Int) (ts : String) :
    pyTruthyOptStr (some (evidence_filename c ts)) = true := by
  show (evidence_filename c ts != "") = true
  apply bne_iff_ne.mpr
  intro hcontra
  have hdata : ("cam_" ++ toString c ++ "_" ++ ts).data ++
      (".mp4" : String).data = ([] : List Char) := congrArg String.data hcontra
  have h3 := (List.append_eq_nil.mp hdata).2
  exact absurd h3 (by decide)

/-- C10: `VideoWriterThread.start_recording` called while a recording is
already in progress returns `(None, None)` and changes nothing — no command
is enqueued and `is_recording`, `current_filename`, `current_thumbnail` are
unchanged; consequently a sentinel `Idle → EventActive` transition that hits
an already-recording recorder emits no alert at all (in particular no
`detected` alert). -/
theorem start_recording_noop_when_already_recording
    (cam_id : Int) (ts : String) (imwriteOk : Bool) (ff : Option Nat)
    (w : VideoWriterState) (hw : w.is_recording = true)
    (sen : SentinelState) (t : Int)
    (h1 : sen.is_intrusion_active = false)
    (h2 : sen.recorder.is_recording = true) :
    start_recording cam_id ts imwriteOk ff w = ((none, none), w) ∧
    (handle_sentinel_mode cam_id ts imwriteOk true 0 t sen).2 = [] ∧
    (handle_sentinel_mode cam_id ts imwriteOk true 0 t sen).1.recorder.current_filename =
      sen.recorder.current_filename ∧
    (handle_sentinel_mode cam_id ts imwriteOk true 0 t sen).1.recorder.current_thumbnail =
      sen.recorder.current_thumbnail := by
  refine ⟨by simp [start_recording, hw], ?_, ?_, ?_⟩ <;>
    simp [handle_sentinel_mode, h1, start_recording, h2, pyTruthyOptStr,
      add_frame, put_nowait_succeeds, video_writer_queue_maxsize]

/-- Closed witness for `start_recording_noop_when_already_recording`. -/
theorem start_recording_noop_witness :
    (handle_sentinel_mode 1 "t1" true true 0 5
      { is_intrusion_active := false, last_intrusion_time := 0,
        recorder := (start_recording 1 "t0" true (some 0) VideoWriterState.init).2 }).2
      = [] :=
  (start_recording_noop_when_already_recording 1 "t1" true (some 0)
    (start_recording 1 "t0" true (some 0) VideoWriterState.init).2 rfl
    { is_intrusion_active := false, last_intrusion_time := 0,
      recorder := (start_recording 1 "t0" true (some 0) VideoWriterState.init).2 }
    5 rfl rfl).2.1

/-! ### C1: one `detected` then one `finished` for a positive burst -/

/-- Mid-event invariant: the sentinel is in `EventActive` with
`last_intrusion_time = tLast`, the recorder is recording, exactly one
`START` and no `STOP` command have been enqueued, and a filename and a
thumbnail were produced at the event start. -/
def EventActiveInv (s : SentinelState) (tLast : Int) : Prop :=
  s.is_intrusion_active = true ∧
  s.last_intrusion_time = tLast ∧
  s.recorder.is_recording = true ∧
  s.recorder.q.countP (fun c => c.isStart) = 1 ∧
  s.recorder.q.countP (fun c => c.isStop) = 0 ∧
  s.recorder.current_filename.isSome = true ∧
  s.recorder.current_thumbnail.isSome = true

/-- Post-event state: back in `Idle`, recorder closed, exactly one `START`
and one `STOP` enqueued over the event. -/
def EventFinished (s : SentinelState) : Prop :=
  s.is_intrusion_active = false ∧
  s.recorder.is_recording = false ∧
  s.recorder.q.countP (fun c => c.isStart) = 1 ∧
  s.recorder.q.countP (fun c => c.isStop) = 1 ∧
  s.recorder.current_filename.isSome = true ∧
  s.recorder.current_thumbnail.isSome = true

theorem sentinel_step_first_pos (cam_id : Int) (ts : String) (t : Int)
    (s : SentinelState)
    (h1 : s.is_intrusion_active = false)
    (h2 : s.recorder.is_recording = false)
    (h3 : s.recorder.q.countP (fun c => c.isStart) = 0)
    (h4 : s.recorder.q.countP (fun c => c.isStop) = 0) :
    (handle_sentinel_mode cam_id ts true true 0 t s).2 = [alert_detected] ∧
    EventActiveInv (handle_sentinel_mode cam_id ts true true 0 t s).1 t := by
  constructor
  · simp [handle_sentinel_mode, h1, start_recording, h2, evidence_filename_truthy]
  · refine ⟨?_, ?_, ?_, ?_, ?_, ?_, ?_⟩ <;>
      simp [handle_sentinel_mode, h1, start_recording, h2,
        evidence_filename_truthy, add_frame, put_nowait_succeeds,
        video_writer_queue_maxsize, h3, h4]

theorem sentinel_step_pos (cam_id : Int) (ts : String) (t tl : Int)
    (s : SentinelState) (h : EventActiveInv s tl) :
    (handle_sentinel_mode cam_id ts true true 0 t s).2 = [] ∧
    EventActiveInv (handle_sentinel_mode cam_id ts true true 0 t s).1 t := by
  obtain ⟨ha, hl, hrec, hcs, hcp, hf, ht⟩ := h
  constructor
  · simp [handle_sentinel_mode, ha]
  · refine ⟨?_, ?_, ?_, ?_, ?_, ?_, ?_⟩ <;>
      simp [handle_sentinel_mode, ha, add_frame, hrec, put_nowait_succeeds,
        video_writer_queue_maxsize, hcs, hcp, hf, ht]

theorem sentinel_step_neg_cooldown (cam_id : Int) (ts : String) (u tl : Int)
    (s : SentinelState) (h : EventActiveInv s tl)
    (hu : u - tl ≤ cooldown_seconds) :
    (handle_sentinel_mode cam_id ts true false 0 u s).2 = [] ∧
    EventActiveInv (handle_sentinel_mode cam_id ts true false 0 u s).1 tl := by
  obtain ⟨ha, hl, hrec, hcs, hcp, hf, ht⟩ := h
  have hnc : ¬ cooldown_seconds < u - tl := by omega
  constructor
  · simp [handle_sentinel_mode, ha, hl, hnc]
  · refine ⟨?_, ?_, ?_, ?_, ?_, ?_, ?_⟩ <;>
      simp [handle_sentinel_mode, ha, hl, hnc, add_frame, hrec,
        put_nowait_succeeds, video_writer_queue_maxsize, hcs, hcp, hf, ht]

theorem sentinel_step_neg_trigger (cam_id : Int) (ts : String) (u tl : Int)
    (s : SentinelState) (h : EventActiveInv s tl)
    (hu : cooldown_seconds < u - tl) :
    (handle_sentinel_mode cam_id ts true false 0 u s).2 = [alert_finished] ∧
    EventFinished (handle_sentinel_mode cam_id ts true false 0 u s).1 := by
  obtain ⟨ha, hl, hrec, hcs, hcp, hf, ht⟩ := h
  have hc : cooldown_seconds < u - tl := by omega
  constructor
  · simp [handle_sentinel_mode, ha, hl, hc]
  · refine ⟨?_, ?_, ?_, ?_, ?_, ?_⟩ <;>
      simp [handle_sentinel_mode, ha, hl, hc, stop_recording, hrec, hcs, hcp,
        hf, ht]

theorem sentinel_step_neg_idle (cam_id : Int) (ts : String)
    (imwriteOk : Bool) (u : Int) (s : SentinelState)
    (h : s.is_intrusion_active = false) :
    handle_sentinel_mode cam_id ts imwriteOk false 0 u s = (s, []) := by
  simp [handle_sentinel_mode, h]

theorem sentinel_run_append (cam_id : Int) (ts : String) (imwriteOk : Bool)
    (s : SentinelState) (l1 l2 : List (Bool × Int)) :
    sentinel_run cam_id ts imwriteOk s (l1 ++ l2) =
      ((sentinel_run cam_id ts imwriteOk
          (sentinel_run cam_id ts imwriteOk s l1).1 l2).1,
       (sentinel_run cam_id ts imwriteOk s l1).2 ++
         (sentinel_run cam_id ts imwriteOk
           (sentinel_run cam_id ts imwriteOk s l1).1 l2).2) := by
  induction l1 generalizing s with
  | nil => simp [sentinel_run]
  | cons p rest ih =>
    obtain ⟨b, t⟩ := p
    simp [sentinel_run, ih]

theorem sentinel_run_single (cam_id : Int) (ts : String) (imwriteOk : Bool)
    (s : SentinelState) (b : Bool) (t : Int) :
    sentinel_run cam_id ts imwriteOk s [(b, t)] =
      ((handle_sentinel_mode cam_id ts imwriteOk b 0 t s).1,
       (handle_sentinel_mode cam_id ts imwriteOk b 0 t s).2) := by
  simp [sentinel_run]

theorem sentinel_run_pos (cam_id : Int) (ts : String) (l : List Int)
    (tl : Int) (s : SentinelState) (h : EventActiveInv s tl) :
    (sentinel_run cam_id ts true s (l.map (fun t => (true, t)))).2 = [] ∧
    EventActiveInv
      (sentinel_run cam_id ts true s (l.map (fun t => (true, t)))).1
      (l.getLastD tl) := by
  induction l generalizing s tl with
  | nil => exact ⟨by simp [sentinel_run], by simpa [sentinel_run] using h⟩
  | cons t rest ih =>
    obtain ⟨he, hinv⟩ := sentinel_step_pos cam_id ts t tl s h
    obtain ⟨ihe, ihinv⟩ := ih _ _ hinv
    refine ⟨?_, ?_⟩
    · simp [sentinel_run, he, ihe]
    · rw [List.getLastD_cons]
      simpa [sentinel_run] using ihinv

theorem sentinel_run_neg_cooldown (cam_id : Int) (ts : String) (l : List Int)
    (tl : Int) (s : SentinelState) (h : EventActiveInv s tl)
    (hl : ∀ u ∈ l, u - tl ≤ cooldown_seconds) :
    (sentinel_run cam_id ts true s (l.map (fun u => (false, u)))).2 = [] ∧
    EventActiveInv
      (sentinel_run cam_id ts true s (l.map (fun u => (false, u)))).1 tl := by
  induction l generalizing s with
  | nil => exact ⟨by simp [sentinel_run], by simpa [sentinel_run] using h⟩
  | cons u rest ih =>
    obtain ⟨he, hinv⟩ := sentinel_step_neg_cooldown cam_id ts u tl s h
      (hl u (by simp))
    obtain ⟨ihe, ihinv⟩ := ih _ hinv (fun v hv => hl v (by simp [hv]))
    exact ⟨by simp [sentinel_run, he, ihe], by simpa [sentinel_run] using ihinv⟩

theorem sentinel_run_neg_idle (cam_id : Int) (ts : String) (imwriteOk : Bool)
    (l : List Int) (s : SentinelState) (h : s.is_intrusion_active = false) :
    sentinel_run cam_id ts imwriteOk s (l.map (fun u => (false, u))) = (s, []) := by
  induction l with
  | nil => simp [sentinel_run]
  | cons u rest ih =>
    simp [sentinel_run, sentinel_step_neg_idle cam_id ts imwriteOk u s h, ih]

/-- C1: starting from `Idle` with an idle recorder, a burst of `N ≥ 1`
positive (intrusion) frames (times `tFirst :: posRest`) followed by negative
frames — some within the cooldown of the last positive frame, then the first
one strictly past the cooldown, then any further negatives — emits exactly
one `detected` alert (on the first positive frame, which also opens exactly
one evidence recording with a filename and thumbnail) and afterwards exactly
one `finished` alert (on the first negative frame past the cooldown, which
closes the recording), in that order, returning the machine to `Idle`. -/
theorem sentinel_burst_one_detected_one_finished
    (cam_id : Int) (ts : String) (tFirst : Int) (posRest : List Int)
    (negPre : List Int) (uStar : Int) (negPost : List Int)
    (hpre : ∀ u ∈ negPre, u - posRest.getLastD tFirst ≤ cooldown_seconds)
    (hstar : cooldown_seconds < uStar - posRest.getLastD tFirst) :
    (sentinel_run cam_id ts true SentinelState.init
        ((tFirst :: posRest).map (fun t => (true, t)) ++
          ((negPre ++ uStar :: negPost).map (fun u => (false, u))))).2 =
      [alert_detected, alert_finished] ∧
    (handle_sentinel_mode cam_id ts true true 0 tFirst SentinelState.init).2 =
      [alert_detected] ∧
    (handle_sentinel_mode cam_id ts true false 0 uStar
        (sentinel_run cam_id ts true SentinelState.init
          ((tFirst :: posRest).map (fun t => (true, t)) ++
            negPre.map (fun u => (false, u)))).1).2 = [alert_finished] ∧
    EventFinished
      (sentinel_run cam_id ts true SentinelState.init
        ((tFirst :: posRest).map (fun t => (true, t)) ++
          ((negPre ++ uStar :: negPost).map (fun u => (false, u))))).1 := by
  -- phase 1: the positive burst
  have hstep1 := sentinel_step_first_pos cam_id ts tFirst SentinelState.init
    rfl rfl rfl rfl
  obtain ⟨he1, hinv1⟩ := hstep1
  have hpos : (sentinel_run cam_id ts true SentinelState.init
      ((tFirst :: posRest).map (fun t => (true, t)))).2 = [alert_detected] ∧
      EventActiveInv (sentinel_run cam_id ts true SentinelState.init
        ((tFirst :: posRest).map (fun t => (true, t)))).1
        (posRest.getLastD tFirst) := by
    obtain ⟨hre, hrinv⟩ := sentinel_run_pos cam_id ts posRest tFirst
      (handle_sentinel_mode cam_id ts true true 0 tFirst SentinelState.init).1 hinv1
    exact ⟨by simp [sentinel_run, he1, hre], by simpa [sentinel_run] using hrinv⟩
  obtain ⟨hposE, hposInv⟩ := hpos
  -- phase 2: negatives within the cooldown
  obtain ⟨hpreE, hpreInv⟩ := sentinel_run_neg_cooldown cam_id ts negPre
    (posRest.getLastD tFirst)
    (sentinel_run cam_id ts true SentinelState.init
      ((tFirst :: posRest).map (fun t => (true, t)))).1 hposInv hpre
  -- phase 3: the triggering negative frame
  obtain ⟨htrigE, htrigFin⟩ := sentinel_step_neg_trigger cam_id ts uStar
    (posRest.getLastD tFirst)
    (sentinel_run cam_id ts true
      (sentinel_run cam_id ts true SentinelState.init
        ((tFirst :: posRest).map (fun t => (true, t)))).1
      (negPre.map (fun u => (false, u)))).1 hpreInv hstar
  -- assemble
  have hmid : (sentinel_run cam_id ts true SentinelState.init
      ((tFirst :: posRest).map (fun t => (true, t)) ++
        negPre.map (fun u => (false, u)))).1 =
      (sentinel_run cam_id ts true
        (sentinel_run cam_id ts true SentinelState.init
          ((tFirst :: posRest).map (fun t => (true, t)))).1
        (negPre.map (fun u => (false, u)))).1 := by
    rw [sentinel_run_append]
  have hdecomp : (negPre ++ uStar :: negPost).map (fun u => (false, u)) =
      negPre.map (fun u => (false, u)) ++
        ((false, uStar) :: negPost.map (fun u => (false, u))) := by
    simp
  have hrest := sentinel_run_neg_idle cam_id ts true negPost
    (handle_sentinel_mode cam_id ts true false 0 uStar
      (sentinel_run cam_id ts true
        (sentinel_run cam_id ts true SentinelState.init
          ((tFirst :: posRest).map (fun t => (true, t)))).1
        (negPre.map (fun u => (false, u)))).1).1 htrigFin.1
  have hcons : (false, uStar) :: negPost.map (fun u => (false, u)) =
      [((false : Bool), uStar)] ++ negPost.map (fun u => (false, u)) := rfl
  refine ⟨?_, he1, by rw [hmid]; exact htrigE, ?_⟩
  · rw [hdecomp, ← List.append_assoc, sentinel_run_append, sentinel_run_append,
      hposE, hpreE, hcons, sentinel_run_append, sentinel_run_single]
    rw [htrigE, hrest]
    simp
  · rw [hdecomp, ← List.append_assoc, sentinel_run_append, hcons,
      sentinel_run_append, sentinel_run_single]
    dsimp only
    rw [hmid, hrest]
    exact htrigFin

/-- Closed witness for `sentinel_burst_one_detected_one_finished`: three
positive frames at times 0, 1, 2, then negatives at 3 (within the 5s
cooldown of the last positive), 9 (past it) and 10. -/
theorem sentinel_burst_witness :
    (sentinel_run 1 "20240101_000000" true SentinelState.init
      [(true, 0), (true, 1), (true, 2), (false, 3), (false, 9),
        (false, 10)]).2 = [alert_detected, alert_finished] :=
  (sentinel_burst_one_detected_one_finished 1 "20240101_000000" 0 [1, 2] [3] 9
    [10] (by decide) (by decide)).1

/-! ### Capture-loop retry behaviour

`CameraProcess._capture_loop` runs `while not self.stop_event.is_set()`:
an open failure sleeps `reconnect_delay = 5` and `continue`s, a read stall
breaks the inner read loop and falls into the `finally` back-off — no path
leaves the outer loop except its `stop_event` condition.  One outer
iteration is abstracted as a pair (stop flag observed at the loop head,
whether the open succeeded). -/

def capture_loop_terminated : List (Bool × Bool) → Bool
  | [] => false
  | (stop_set, _open_ok) :: rest =>
    if stop_set then true else capture_loop_terminated rest

/-- Constant `MAX_RECONNECT_ATTEMPTS = 5` of `VisionManager._camera_loop`. -/
def MAX_RECONNECT_ATTEMPTS : Nat := 5

/-- The reconnect counter of `VisionManager._camera_loop` after a list of
connection attempts (`true` = connected and entered the frame loop, which
resets the counter; `false` = open/FFmpeg failure, which increments it); the
loop refuses to run another attempt once the counter reaches
`MAX_RECONNECT_ATTEMPTS`. -/
def camera_loop_final_attempt : Nat → List Bool → Nat
  | a, [] => a
  | a, ok :: rest =>
    if a < MAX_RECONNECT_ATTEMPTS then
      camera_loop_final_attempt (if ok then 0 else a + 1) rest
    else a

/-- With the stop flag never set, has `_camera_loop`'s
`while not stop_flag and reconnect_attempt < MAX_RECONNECT_ATTEMPTS`
condition gone false (the loop terminated)? -/
def camera_loop_terminated_without_stop (outcomes : List Bool) : Bool :=
  decide (MAX_RECONNECT_ATTEMPTS ≤ camera_loop_final_attempt 0 outcomes)

/-- C6 counterexample: after five consecutive failed connection attempts,
`VisionManager._camera_loop` terminates even though the stop flag was never
set — the cited loop does not retry indefinitely. -/
theorem camera_loop_stops_after_five_failures :
    camera_loop_terminated_without_stop [false, false, false, false, false] =
      true := by decide

theorem camera_loop_final_attempt_replicate (n a : Nat) (h : a ≤ 5) :
    camera_loop_final_attempt a (List.replicate n false) = min 5 (a + n) := by
  induction n generalizing a with
  | zero =>
    simp only [List.replicate, camera_loop_final_attempt]
    omega
  | succ n ih =>
    rw [List.replicate_succ]
    by_cases ha : a < MAX_RECONNECT_ATTEMPTS
    · rw [show camera_loop_final_attempt a (false :: List.replicate n false) =
          camera_loop_final_attempt (a + 1) (List.replicate n false) from by
        simp [camera_loop_final_attempt, ha]]
      rw [ih (a + 1) (by simp [MAX_RECONNECT_ATTEMPTS] at ha; omega)]
      omega
    · rw [show camera_loop_final_attempt a (false :: List.replicate n false) = a
          from by simp [camera_loop_final_attempt, ha]]
      simp [MAX_RECONNECT_ATTEMPTS] at ha
      omega

/-- C6 (amended): `CameraProcess._capture_loop` never terminates while the
stop flag stays unset, whatever the connection outcomes; but
`VisionManager._camera_loop` terminates, without the stop flag, exactly when
it accumulates `MAX_RECONNECT_ATTEMPTS = 5` consecutive connection
failures. -/
theorem capture_loop_retries_indefinitely :
    (∀ events : List (Bool × Bool), (∀ e ∈ events, e.1 = false) →
      capture_loop_terminated events = false) ∧
    (∀ n : Nat, camera_loop_terminated_without_stop (List.replicate n false) =
      decide (MAX_RECONNECT_ATTEMPTS ≤ n)) := by
  constructor
  · intro events hev
    induction events with
    | nil => rfl
    | cons e rest ih =>
      obtain ⟨stop_set, open_ok⟩ := e
      have h1 : stop_set = false := hev (stop_set, open_ok) (by simp)
      rw [h1]
      show capture_loop_terminated rest = false
      exact ih (fun x hx => hev x (by simp [hx]))
  · intro n
    unfold camera_loop_terminated_without_stop
    rw [camera_loop_final_attempt_replicate n 0 (by omega)]
    rw [decide_eq_decide]
    simp only [MAX_RECONNECT_ATTEMPTS]
    omega

/-- Closed witness for `capture_loop_retries_indefinitely`: seven
consecutive failed opens with the stop flag unset leave the capture loop
running. -/
theorem capture_loop_retries_indefinitely_witness :
    capture_loop_terminated
      (List.replicate 7 ((false : Bool), (false : Bool))) = false :=
  capture_loop_retries_indefinitely.1
    (List.replicate 7 ((false : Bool), (false : Bool))) (by decide)

/-! ### Worker supervisor — `VisionManager` in `modules/vision/manager.py`

`self.active_cameras : dict` is modelled as an association list; `self.lock
= threading.Lock()` is a non-reentrant lock.  Configuration
(`device_config`) and the processor registry are external collaborators
passed as parameters. -/

structure CameraConfig where
  active_processor : Option Int
  rtsp_url : String
  deriving Repr, DecidableEq

structure DeviceConfig where
  get_camera : Int → Option CameraConfig

/-- Model of `DeviceConfig.get_rtsp_url`: `cam["rtsp_url"] if cam else None`. -/
def DeviceConfig.get_rtsp_url (cfg : DeviceConfig) (cam_id : Int) :
    Option String :=
  (cfg.get_camera cam_id).map (fun c => c.rtsp_url)

/-- Registry lookup `get_processor_class(processor_id)` in `processors/__init__.py` returns
a class iff the id is a key of `AVAILABLE_PROCESSORS` (keys are the non-None
`PROCESSOR_ID`s, so Python `None` is never found). -/
def get_processor_class_found (procs : Int → Bool) : Option Int → Bool
  | none => false
  | some pid => procs pid

structure CameraData where
  rtsp_url : String
  processor_id : Option Int
  stop_flag : Bool
  thread_alive : Bool
  last_frame_time : Int
  deriving Repr, DecidableEq

structure ManagerState where
  active_cameras : List (Int × CameraData)
  deriving Repr, DecidableEq

/-- Membership test `cam_id in self.active_cameras`. -/
def is_camera_active (s : ManagerState) (cam_id : Int) : Bool :=
  s.active_cameras.any (fun p => p.1 == cam_id)

/-- Default resolution `if processor_id is None: processor_id = camera.get('active_processor')`. -/
def resolve_processor_id (processor_id : Option Int) (camera : CameraConfig) :
    Option Int :=
  match processor_id with
  | none => camera.active_processor
  | some p => some p

/-- Body of `VisionManager.start_camera(cam_id, processor_id)` (the part
under `with self.lock`): guards in source order, then registration of the
`camera_data` dict and the worker thread.  `now` stands for `time.time()`
at the call. -/
def start_camera (cfg : DeviceConfig) (procs : Int → Bool) (now : Int)
    (s : ManagerState) (cam_id : Int) (processor_id : Option Int) :
    Bool × ManagerState :=
  if is_camera_active s cam_id then (false, s)
  else
    match cfg.get_camera cam_id with
    | none => (false, s)
    | some camera =>
      let pid := resolve_processor_id processor_id camera
      if !get_processor_class_found procs pid then (false, s)
      else if !pyTruthyOptStr (cfg.get_rtsp_url cam_id) then (false, s)
      else
        (true,
         { active_cameras := s.active_cameras ++
            [(cam_id,
              { rtsp_url := Option.getD (cfg.get_rtsp_url cam_id) "",
                processor_id := pid,
                stop_flag := false,
                thread_alive := true,
                last_frame_time := now })] })

/-- Python `threading.Lock` is not reentrant: `acquire` by the thread already
holding it blocks forever, modelled as `none`. -/
def lock_acquire_nonreentrant (alreadyHeldByThisThread : Bool) : Option Unit :=
  if alreadyHeldByThisThread then none else some ()

/-- A call to `VisionManager.start_camera`, whose first action is
`with self.lock`. -/
def start_camera_call (lockHeldByCaller : Bool) (cfg : DeviceConfig)
    (procs : Int → Bool) (now : Int) (s : ManagerState) (cam_id : Int)
    (processor_id : Option Int) : Option (Bool × ManagerState) :=
  match lock_acquire_nonreentrant lockHeldByCaller with
  | none => none
  | some _ => some (start_camera cfg procs now s cam_id processor_id)

/-- Model of `VisionManager._restart_camera_internal(cam_id)`: stop, clean up,
`del self.active_cameras[cam_id]`, then `self.start_camera(cam_id,
processor_id)` — which re-acquires `self.lock`.  `none` means the call
never returns. -/
def restart_camera_internal (lockHeldByCaller : Bool) (cfg : DeviceConfig)
    (procs : Int → Bool) (now : Int) (s : ManagerState) (cam_id : Int) :
    Option ManagerState :=
  match s.active_cameras.find? (fun p => p.1 == cam_id) with
  | none => some s
  | some entry =>
    let s2 : ManagerState :=
      { active_cameras := s.active_cameras.filter (fun p => !(p.1 == cam_id)) }
    match start_camera_call lockHeldByCaller cfg procs now s2 cam_id
        entry.2.processor_id with
    | none => none
    | some r => some r.2

/-- One camera's health check inside `VisionManager._watchdog_loop`, which
runs while holding `self.lock`: a dead thread or a frame older than 30
seconds triggers `_restart_camera_internal`. -/
def watchdog_check_camera (cfg : DeviceConfig) (procs : Int → Bool)
    (now : Int) (s : ManagerState) (cam_id : Int) (cd : CameraData) :
    Option ManagerState :=
  if !cd.thread_alive then
    restart_camera_internal true cfg procs now s cam_id
  else if now - cd.last_frame_time > 30 then
    restart_camera_internal true cfg procs now s cam_id
  else some s

def demo_cfg : DeviceConfig :=
  { get_camera := fun i =>
      if i = 1 then
        some { active_processor := some 2, rtsp_url := "rtsp://camera-one" }
      else none }

def demo_procs : Int → Bool := fun i => i == 2

def demo_dead_cam : CameraData :=
  { rtsp_url := "rtsp://camera-one", processor_id := some 2,
    stop_flag := false, thread_alive := false, last_frame_time := 0 }

def demo_state : ManagerState := { active_cameras := [(1, demo_dead_cam)] }

/-- C7: with camera 1 active, fully configured, and its worker thread dead,
the watchdog's restart never completes — `_watchdog_loop` holds the
non-reentrant `self.lock` while `_restart_camera_internal` calls
`start_camera`, which blocks acquiring the same lock — even though the very
same `start_camera` call would have succeeded with the lock free.  So
`is_camera_active` never becomes true again after a watchdog-triggered
restart. -/
theorem watchdog_restart_deadlocks :
    watchdog_check_camera demo_cfg demo_procs 100 demo_state 1 demo_dead_cam
        = none ∧
    start_camera_call false demo_cfg demo_procs 100
        { active_cameras := [] } 1 (some 2) =
      some (start_camera demo_cfg demo_procs 100
        { active_cameras := [] } 1 (some 2)) ∧
    (start_camera demo_cfg demo_procs 100
      { active_cameras := [] } 1 (some 2)).1 = true := by
  refine ⟨rfl, rfl, ?_⟩
  decide

/-- C8: `start_camera` is a no-op returning `False` when the camera is
already active; it fails immediately, registering nothing, when the camera
config is missing, the processor class is unknown, or the stream URI is
absent/empty; and with all configuration present it registers exactly this
camera and returns `True`. -/
theorem start_camera_spec (cfg : DeviceConfig) (procs : Int → Bool)
    (now : Int) (s : ManagerState) (cam_id : Int)
    (processor_id : Option Int) :
    (is_camera_active s cam_id = true →
      start_camera cfg procs now s cam_id processor_id = (false, s)) ∧
    (is_camera_active s cam_id = false →
      cfg.get_camera cam_id = none →
      start_camera cfg procs now s cam_id processor_id = (false, s)) ∧
    (∀ camera, is_camera_active s cam_id = false →
      cfg.get_camera cam_id = some camera →
      get_processor_class_found procs
        (resolve_processor_id processor_id camera) = false →
      start_camera cfg procs now s cam_id processor_id = (false, s)) ∧
    (∀ camera, is_camera_active s cam_id = false →
      cfg.get_camera cam_id = some camera →
      get_processor_class_found procs
        (resolve_processor_id processor_id camera) = true →
      pyTruthyOptStr (cfg.get_rtsp_url cam_id) = false →
      start_camera cfg procs now s cam_id processor_id = (false, s)) ∧
    (∀ camera, is_camera_active s cam_id = false →
      cfg.get_camera cam_id = some camera →
      get_processor_class_found procs
        (resolve_processor_id processor_id camera) = true →
      pyTruthyOptStr (cfg.get_rtsp_url cam_id) = true →
      (start_camera cfg procs now s cam_id processor_id).1 = true ∧
      is_camera_active
        (start_camera cfg procs now s cam_id processor_id).2 cam_id = true ∧
      (start_camera cfg procs now s cam_id processor_id).2.active_cameras.map
          Prod.fst =
        s.active_cameras.map Prod.fst ++ [cam_id]) := by
  refine ⟨?_, ?_, ?_, ?_, ?_⟩
  · intro h
    simp [start_camera, h]
  · intro h hc
    simp [start_camera, h, hc]
  · intro camera h hc hp
    simp [start_camera, h, hc, hp]
  · intro camera h hc hp hu
    simp [start_camera, h, hc, hp, hu]
  · intro camera h hc hp hu
    simp only [is_camera_active] at h
    refine ⟨?_, ?_, ?_⟩ <;>
      simp [start_camera, is_camera_active, h, hc, hp, hu]

/-- Closed witness for `start_camera_spec`: starting camera 1 on an empty
manager with full configuration registers it and returns `True`; starting
it again is refused. -/
theorem start_camera_spec_witness :
    (start_camera demo_cfg demo_procs 100
        { active_cameras := [] } 1 (some 2)).1 = true ∧
    start_camera demo_cfg demo_procs 100
        (start_camera demo_cfg demo_procs 100
          { active_cameras := [] } 1 (some 2)).2 1 (some 2) =
      (false, (start_camera demo_cfg demo_procs 100
        { active_cameras := [] } 1 (some 2)).2) :=
  ⟨((start_camera_spec demo_cfg demo_procs 100 { active_cameras := [] } 1
      (some 2)).2.2.2.2
      { active_processor := some 2, rtsp_url := "rtsp://camera-one" }
      (by decide) (by decide) (by decide) (by decide)).1,
   (start_camera_spec demo_cfg demo_procs 100
      (start_camera demo_cfg demo_procs 100
        { active_cameras := [] } 1 (some 2)).2 1 (some 2)).1 (by decide)⟩

end CistemVision
